import Mathlib

/-!
Shallow embedding of the Go package `errclose` (`src/errclose.go`), which provides
two functions, `Close` and `Closef`, for handling errors when closing resources.

Modelling choices:
* A Go `error` value is `GoErr`: either a base error (distinguished by an id, with a
  message, standing for any concrete error value compared by interface identity), or
  one of the two wrap nodes that `fmt.Errorf` with `%w` produces in this package:
  a single-wrap node (one `%w` verb) or a double-wrap node (two `%w` verbs).
* `errors.Is` is `errorsIs`: it compares the error against the target at each node
  and recursively unwraps, exactly as Go's `errors.Is` walks the unwrap tree.
* The mutable `*error` slot that `returnedErr` points to is the `slot` field of a
  state record `St`, which also carries instrumentation counters: how many times the
  release action was invoked, how many times the combiner read and wrote the slot,
  and how many times `fmt.Sprintf` ran.
* `resource.Close()` is a `ReleaseAction`: a function from the current slot contents
  to (possibly-updated slot contents, optional close error). The first component lets
  the model express release actions that themselves write to the same outcome
  variable through a captured pointer; an ordinary resource leaves it unchanged
  (`pureRelease`).
* `fmt.Sprintf` is modelled for format strings whose verbs are `%s` (and the escape
  `%%`) with string arguments, which covers every format the package documentation
  and tests use; Go's `%!s(MISSING)` and `%!(EXTRA ...)` outputs for arity mismatch
  are reproduced.
* A second model, `ClosePtr`/`ClosefPtr`, makes the pointer itself nullable
  (`Option` of slot contents) and returns `Except`, so nil-pointer dereference on
  each path can be reasoned about.
-/

namespace Errclose

/-- A Go `error` value as produced and consumed by this package: a base error, or a
wrap node created by `fmt.Errorf` with one or two `%w` verbs. -/
inductive GoErr where
  | base (id : Nat) (msg : String)
  | wrap1 (msg : String) (wrapped : GoErr)
  | wrap2 (msg : String) (wrappedA : GoErr) (wrappedB : GoErr)
deriving DecidableEq, Repr

/-- The `Error()` method: the message carried by an error value. -/
def errMsg : GoErr → String
  | GoErr.base _ m => m
  | GoErr.wrap1 m _ => m
  | GoErr.wrap2 m _ _ => m

/-- Go's `errors.Is(e, target)`: compare at each node of the unwrap tree, recursing
into the errors wrapped by `%w`. -/
def errorsIs : GoErr → GoErr → Bool
  | GoErr.base i m, target => decide (GoErr.base i m = target)
  | GoErr.wrap1 m c, target => decide (GoErr.wrap1 m c = target) || errorsIs c target
  | GoErr.wrap2 m c1 c2, target =>
      decide (GoErr.wrap2 m c1 c2 = target) || errorsIs c1 target || errorsIs c2 target

/-- `fmt.Errorf("failed to close %s: %w", resourceName, closeErr)`
(src/errclose.go line 70 and line 142). -/
def errorfCloseFailed (resourceName : String) (closeErr : GoErr) : GoErr :=
  GoErr.wrap1 ("failed to close " ++ resourceName ++ ": " ++ errMsg closeErr) closeErr

/-- `fmt.Errorf("%w (and failed to close %s: %w)", currentReturnedErr, resourceName,
closeErr)` (src/errclose.go lines 63-68 and lines 135-140). -/
def errorfCombined (currentReturnedErr : GoErr) (resourceName : String)
    (closeErr : GoErr) : GoErr :=
  GoErr.wrap2
    (errMsg currentReturnedErr ++ " (and failed to close " ++ resourceName ++ ": "
      ++ errMsg closeErr ++ ")")
    currentReturnedErr closeErr

/-- The extra-arguments tail Go prints when `Sprintf` is given more arguments than
verbs: `string=a1, string=a2`. -/
def sprintfExtras : List String → String
  | [] => ""
  | [a] => "string=" ++ a
  | a :: rest => "string=" ++ a ++ ", " ++ sprintfExtras rest

/-- `fmt.Sprintf` on the characters of the format string, for `%s` verbs (and `%%`)
with string arguments — the only shapes this package's formats use. Missing and
extra arguments produce Go's `%!s(MISSING)` and `%!(EXTRA ...)` outputs. -/
def sprintfAux : List Char → List String → String
  | [], [] => ""
  | [], a :: rest => "%!(EXTRA " ++ sprintfExtras (a :: rest) ++ ")"
  | '%' :: 's' :: fmtRest, a :: argsRest => a ++ sprintfAux fmtRest argsRest
  | '%' :: 's' :: fmtRest, [] => "%!s(MISSING)" ++ sprintfAux fmtRest []
  | '%' :: '%' :: fmtRest, args => "%" ++ sprintfAux fmtRest args
  | c :: fmtRest, args => c.toString ++ sprintfAux fmtRest args

/-- `fmt.Sprintf(format, args...)` for string arguments. -/
def sprintf (format : String) (args : List String) : String :=
  sprintfAux format.data args

/-- The state visible to one combiner invocation: the contents of the `*error` slot
that `returnedErr` points to, plus instrumentation counters. -/
structure St where
  slot : Option GoErr
  closeCalls : Nat
  slotReads : Nat
  slotWrites : Nat
  sprintfCalls : Nat
deriving DecidableEq, Repr

/-- A release action (`resource.Close()`): given the current slot contents (which
the resource could observe or mutate through a captured pointer), it returns the
slot contents after the call together with the optional close error. -/
def ReleaseAction : Type := Option GoErr → Option GoErr × Option GoErr

/-- An ordinary release action: leaves the outcome slot alone and returns the given
close result. -/
def pureRelease (closeResult : Option GoErr) : ReleaseAction :=
  fun slot => (slot, closeResult)

/-- `errclose.Close` (src/errclose.go lines 51-72). Invokes the release action once;
if the close error is nil it returns at once without touching the slot. Otherwise it
reads the slot once (`currentReturnedErr := *returnedErr`) and writes it once, with
the combined error when an error was already present, else with the wrapped close
error. -/
def Close (resource : ReleaseAction) (resourceName : String) (s : St) : St :=
  match resource s.slot with
  | (slotAfterClose, none) =>
      { s with slot := slotAfterClose, closeCalls := s.closeCalls + 1 }
  | (slotAfterClose, some closeErr) =>
      match slotAfterClose with
      | some currentReturnedErr =>
          { slot := some (errorfCombined currentReturnedErr resourceName closeErr)
            closeCalls := s.closeCalls + 1
            slotReads := s.slotReads + 1
            slotWrites := s.slotWrites + 1
            sprintfCalls := s.sprintfCalls }
      | none =>
          { slot := some (errorfCloseFailed resourceName closeErr)
            closeCalls := s.closeCalls + 1
            slotReads := s.slotReads + 1
            slotWrites := s.slotWrites + 1
            sprintfCalls := s.sprintfCalls }

/-- `errclose.Closef` (src/errclose.go lines 120-144). Like `Close`, but the
resource name is produced by `fmt.Sprintf(resourceNameFormat, formatArgs...)`, and
only on the path where the close error is non-nil. -/
def Closef (resource : ReleaseAction) (resourceNameFormat : String)
    (formatArgs : List String) (s : St) : St :=
  match resource s.slot with
  | (slotAfterClose, none) =>
      { s with slot := slotAfterClose, closeCalls := s.closeCalls + 1 }
  | (slotAfterClose, some closeErr) =>
      match slotAfterClose with
      | some currentReturnedErr =>
          { slot := some (errorfCombined currentReturnedErr
              (sprintf resourceNameFormat formatArgs) closeErr)
            closeCalls := s.closeCalls + 1
            slotReads := s.slotReads + 1
            slotWrites := s.slotWrites + 1
            sprintfCalls := s.sprintfCalls + 1 }
      | none =>
          { slot := some (errorfCloseFailed
              (sprintf resourceNameFormat formatArgs) closeErr)
            closeCalls := s.closeCalls + 1
            slotReads := s.slotReads + 1
            slotWrites := s.slotWrites + 1
            sprintfCalls := s.sprintfCalls + 1 }

/-- `errclose.Close` in the nullable-pointer model: `returnedErr` is `none` when the
caller passed a nil `*error` pointer, otherwise `some` of the slot contents. A nil
dereference on the failure path is an `Except.error`; the ok result is the pointer's
final view. The release action here is a plain `Close() error` thunk. -/
def ClosePtr (resource : Unit → Option GoErr) (returnedErr : Option (Option GoErr))
    (resourceName : String) : Except String (Option (Option GoErr)) :=
  match resource () with
  | none => Except.ok returnedErr
  | some closeErr =>
      match returnedErr with
      | none =>
          Except.error "runtime error: invalid memory address or nil pointer dereference"
      | some currentReturnedErr =>
          match currentReturnedErr with
          | some cur => Except.ok (some (some (errorfCombined cur resourceName closeErr)))
          | none => Except.ok (some (some (errorfCloseFailed resourceName closeErr)))

/-- `errclose.Closef` in the nullable-pointer model (see `ClosePtr`). -/
def ClosefPtr (resource : Unit → Option GoErr) (returnedErr : Option (Option GoErr))
    (resourceNameFormat : String) (formatArgs : List String) :
    Except String (Option (Option GoErr)) :=
  match resource () with
  | none => Except.ok returnedErr
  | some closeErr =>
      match returnedErr with
      | none =>
          Except.error "runtime error: invalid memory address or nil pointer dereference"
      | some currentReturnedErr =>
          match currentReturnedErr with
          | some cur =>
              Except.ok (some (some (errorfCombined cur
                (sprintf resourceNameFormat formatArgs) closeErr)))
          | none =>
              Except.ok (some (some (errorfCloseFailed
                (sprintf resourceNameFormat formatArgs) closeErr)))

/-- A sequence of deferred `Close` invocations against the same outcome slot: each
step is a close result (the error `resource.Close()` will return, or `none`) paired
with a resource name. -/
def runCloses : List (Option GoErr × String) → St → St
  | [], s => s
  | (closeResult, name) :: rest, s => runCloses rest (Close (pureRelease closeResult) name s)

/-- The base errors reachable from an error value by unwrapping: the set of original
failures a combined error was built from. -/
def baseErrs : GoErr → List GoErr
  | GoErr.base i m => [GoErr.base i m]
  | GoErr.wrap1 _ c => baseErrs c
  | GoErr.wrap2 _ c1 c2 => baseErrs c1 ++ baseErrs c2

/-- The base errors of an optional error value. -/
def optBaseErrs : Option GoErr → List GoErr
  | none => []
  | some e => baseErrs e

theorem errorsIs_self (e : GoErr) : errorsIs e e = true := by
  cases e <;> simp [errorsIs]

theorem errorsIs_errorfCloseFailed (name : String) (ce : GoErr) :
    errorsIs (errorfCloseFailed name ce) ce = true := by
  simp [errorfCloseFailed, errorsIs, errorsIs_self]

theorem errorsIs_errorfCombined_left (cur : GoErr) (name : String) (ce : GoErr) :
    errorsIs (errorfCombined cur name ce) cur = true := by
  simp [errorfCombined, errorsIs, errorsIs_self]

theorem errorsIs_errorfCombined_right (cur : GoErr) (name : String) (ce : GoErr) :
    errorsIs (errorfCombined cur name ce) ce = true := by
  simp [errorfCombined, errorsIs, errorsIs_self]

/-- Claim C1: when the release action fails and the outcome slot holds no error at
the point it is read, both Close and Closef set the slot to a new error whose
message is `failed to close NAME: RELEASE-MESSAGE`, and `errors.Is` of that new
error against the release failure succeeds. -/
theorem close_failure_with_empty_slot_wraps_close_error
    (resource : ReleaseAction) (name fmtStr : String) (args : List String)
    (s : St) (ce : GoErr) (h : resource s.slot = (none, some ce)) :
    (∃ v, (Close resource name s).slot = some v ∧
        errMsg v = "failed to close " ++ name ++ ": " ++ errMsg ce ∧
        errorsIs v ce = true) ∧
    (∃ v, (Closef resource fmtStr args s).slot = some v ∧
        errMsg v = "failed to close " ++ sprintf fmtStr args ++ ": " ++ errMsg ce ∧
        errorsIs v ce = true) := by
  refine ⟨⟨errorfCloseFailed name ce, ?_, rfl, errorsIs_errorfCloseFailed name ce⟩,
          ⟨errorfCloseFailed (sprintf fmtStr args) ce, ?_, rfl,
            errorsIs_errorfCloseFailed (sprintf fmtStr args) ce⟩⟩
  · simp [Close, h]
  · simp [Closef, h]

theorem close_failure_with_empty_slot_wraps_close_error_witness :
    (∃ v, (Close (pureRelease (some (GoErr.base 1 "close error"))) "file"
        ⟨none, 0, 0, 0, 0⟩).slot = some v ∧
        errMsg v = "failed to close " ++ "file" ++ ": " ++ errMsg (GoErr.base 1 "close error") ∧
        errorsIs v (GoErr.base 1 "close error") = true) ∧
    (∃ v, (Closef (pureRelease (some (GoErr.base 1 "close error"))) "file at path %s"
        ["/example/path"] ⟨none, 0, 0, 0, 0⟩).slot = some v ∧
        errMsg v = "failed to close " ++ sprintf "file at path %s" ["/example/path"] ++ ": "
          ++ errMsg (GoErr.base 1 "close error") ∧
        errorsIs v (GoErr.base 1 "close error") = true) :=
  close_failure_with_empty_slot_wraps_close_error
    (pureRelease (some (GoErr.base 1 "close error"))) "file" "file at path %s"
    ["/example/path"] ⟨none, 0, 0, 0, 0⟩ (GoErr.base 1 "close error") rfl

/-- Claim C2: when the release action fails and the outcome slot holds an existing
error E at the point it is read, both Close and Closef set the slot to a new error
whose message is `E-MESSAGE (and failed to close NAME: RELEASE-MESSAGE)`, and
`errors.Is` of that new error succeeds against both E and the release failure. -/
theorem close_failure_with_existing_error_combines
    (resource : ReleaseAction) (name fmtStr : String) (args : List String)
    (s : St) (cur ce : GoErr) (h : resource s.slot = (some cur, some ce)) :
    (∃ v, (Close resource name s).slot = some v ∧
        errMsg v = errMsg cur ++ " (and failed to close " ++ name ++ ": "
          ++ errMsg ce ++ ")" ∧
        errorsIs v cur = true ∧ errorsIs v ce = true) ∧
    (∃ v, (Closef resource fmtStr args s).slot = some v ∧
        errMsg v = errMsg cur ++ " (and failed to close " ++ sprintf fmtStr args ++ ": "
          ++ errMsg ce ++ ")" ∧
        errorsIs v cur = true ∧ errorsIs v ce = true) := by
  refine ⟨⟨errorfCombined cur name ce, ?_, rfl,
            errorsIs_errorfCombined_left cur name ce,
            errorsIs_errorfCombined_right cur name ce⟩,
          ⟨errorfCombined cur (sprintf fmtStr args) ce, ?_, rfl,
            errorsIs_errorfCombined_left cur (sprintf fmtStr args) ce,
            errorsIs_errorfCombined_right cur (sprintf fmtStr args) ce⟩⟩
  · simp [Close, h]
  · simp [Closef, h]

theorem close_failure_with_existing_error_combines_witness :
    (∃ v, (Close (pureRelease (some (GoErr.base 1 "close error"))) "file"
        ⟨some (GoErr.base 0 "operation failed"), 0, 0, 0, 0⟩).slot = some v ∧
        errMsg v = errMsg (GoErr.base 0 "operation failed") ++ " (and failed to close "
          ++ "file" ++ ": " ++ errMsg (GoErr.base 1 "close error") ++ ")" ∧
        errorsIs v (GoErr.base 0 "operation failed") = true ∧
        errorsIs v (GoErr.base 1 "close error") = true) ∧
    (∃ v, (Closef (pureRelease (some (GoErr.base 1 "close error"))) "file at path %s"
        ["/example/path"] ⟨some (GoErr.base 0 "operation failed"), 0, 0, 0, 0⟩).slot = some v ∧
        errMsg v = errMsg (GoErr.base 0 "operation failed") ++ " (and failed to close "
          ++ sprintf "file at path %s" ["/example/path"] ++ ": "
          ++ errMsg (GoErr.base 1 "close error") ++ ")" ∧
        errorsIs v (GoErr.base 0 "operation failed") = true ∧
        errorsIs v (GoErr.base 1 "close error") = true) :=
  close_failure_with_existing_error_combines
    (pureRelease (some (GoErr.base 1 "close error"))) "file" "file at path %s"
    ["/example/path"] ⟨some (GoErr.base 0 "operation failed"), 0, 0, 0, 0⟩
    (GoErr.base 0 "operation failed") (GoErr.base 1 "close error") rfl

/-- Claim C3: when the release action succeeds (returns nil) and does not itself
touch the slot, both Close and Closef leave the outcome slot bit-identical to its
pre-call state — whether it held an error or not — and perform no slot write. -/
theorem close_success_leaves_slot_untouched
    (resource : ReleaseAction) (name fmtStr : String) (args : List String)
    (s : St) (h : resource s.slot = (s.slot, none)) :
    (Close resource name s).slot = s.slot ∧
    (Close resource name s).slotWrites = s.slotWrites ∧
    (Closef resource fmtStr args s).slot = s.slot ∧
    (Closef resource fmtStr args s).slotWrites = s.slotWrites := by
  refine ⟨?_, ?_, ?_, ?_⟩ <;> simp [Close, Closef, h]

theorem close_success_leaves_slot_untouched_witness :
    (Close (pureRelease none) "file"
        ⟨some (GoErr.base 0 "operation failed"), 0, 0, 0, 0⟩).slot =
      (⟨some (GoErr.base 0 "operation failed"), 0, 0, 0, 0⟩ : St).slot ∧
    (Close (pureRelease none) "file"
        ⟨some (GoErr.base 0 "operation failed"), 0, 0, 0, 0⟩).slotWrites =
      (⟨some (GoErr.base 0 "operation failed"), 0, 0, 0, 0⟩ : St).slotWrites ∧
    (Closef (pureRelease none) "file at path %s" ["/example/path"]
        ⟨some (GoErr.base 0 "operation failed"), 0, 0, 0, 0⟩).slot =
      (⟨some (GoErr.base 0 "operation failed"), 0, 0, 0, 0⟩ : St).slot ∧
    (Closef (pureRelease none) "file at path %s" ["/example/path"]
        ⟨some (GoErr.base 0 "operation failed"), 0, 0, 0, 0⟩).slotWrites =
      (⟨some (GoErr.base 0 "operation failed"), 0, 0, 0, 0⟩ : St).slotWrites :=
  close_success_leaves_slot_untouched (pureRelease none) "file" "file at path %s"
    ["/example/path"] ⟨some (GoErr.base 0 "operation failed"), 0, 0, 0, 0⟩ rfl

/-- Claim C4: every invocation of Close or Closef invokes the release action exactly
once and writes the outcome slot at most once, whatever the slot's prior state and
whatever the release action returns. -/
theorem close_invokes_release_once_writes_at_most_once
    (resource : ReleaseAction) (name fmtStr : String) (args : List String) (s : St) :
    (Close resource name s).closeCalls = s.closeCalls + 1 ∧
    (Close resource name s).slotWrites ≤ s.slotWrites + 1 ∧
    (Closef resource fmtStr args s).closeCalls = s.closeCalls + 1 ∧
    (Closef resource fmtStr args s).slotWrites ≤ s.slotWrites + 1 := by
  rcases h : resource s.slot with ⟨slotAfter, closeRes⟩
  cases closeRes <;> cases slotAfter <;>
    refine ⟨?_, ?_, ?_, ?_⟩ <;> simp [Close, Closef, h]

/-- Claim C5: Closef leaves the outcome slot exactly as Close would when given the
Sprintf-precomputed name, for every release action, format string, argument list and
prior state; and in particular the lazy-naming scenario — format `file at path %s`
with argument `/example/path`, release failure `close error`, empty prior slot —
yields the message `failed to close file at path /example/path: close error`. -/
theorem closef_refines_close_with_sprintf :
    (∀ (resource : ReleaseAction) (fmtStr : String) (args : List String) (s : St),
        (Closef resource fmtStr args s).slot =
          (Close resource (sprintf fmtStr args) s).slot) ∧
    (∃ v, (Closef (pureRelease (some (GoErr.base 1 "close error"))) "file at path %s"
        ["/example/path"] ⟨none, 0, 0, 0, 0⟩).slot = some v ∧
        errMsg v = "failed to close file at path /example/path: close error") := by
  constructor
  · intro resource fmtStr args s
    rcases h : resource s.slot with ⟨slotAfter, closeRes⟩
    cases closeRes <;> cases slotAfter <;> simp [Close, Closef, h]
  · exact ⟨errorfCloseFailed (sprintf "file at path %s" ["/example/path"])
      (GoErr.base 1 "close error"), by decide, by decide⟩

/-- Claim C6: in every Closef invocation, name formatting (Sprintf) runs zero times
when the release action succeeds and exactly once when it fails. -/
theorem closef_formats_name_iff_close_failed
    (resource : ReleaseAction) (fmtStr : String) (args : List String) (s : St) :
    (Closef resource fmtStr args s).sprintfCalls =
      s.sprintfCalls + (match (resource s.slot).2 with | none => 0 | some _ => 1) := by
  rcases h : resource s.slot with ⟨slotAfter, closeRes⟩
  cases closeRes <;> cases slotAfter <;> simp [Closef, h]

theorem runCloses_preserves_cause :
    ∀ (steps : List (Option GoErr × String)) (s : St) (v e : GoErr),
      s.slot = some v → errorsIs v e = true →
      ∃ w, (runCloses steps s).slot = some w ∧ errorsIs w e = true := by
  intro steps
  induction steps with
  | nil => exact fun s v e hs hIs => ⟨v, hs, hIs⟩
  | cons p rest ih =>
      intro s v e hs hIs
      obtain ⟨closeResult, name⟩ := p
      have step : ∃ w, (Close (pureRelease closeResult) name s).slot = some w ∧
          errorsIs w e = true := by
        cases closeResult with
        | none => exact ⟨v, by simp [Close, pureRelease, hs], hIs⟩
        | some ce =>
            exact ⟨errorfCombined v name ce, by simp [Close, pureRelease, hs],
              by simp [errorfCombined, errorsIs, hIs]⟩
      obtain ⟨w, hw, hwIs⟩ := step
      exact ih _ w e hw hwIs

theorem runCloses_identifies_close_error :
    ∀ (steps : List (Option GoErr × String)) (s : St) (ce : GoErr) (name : String),
      (some ce, name) ∈ steps →
      ∃ w, (runCloses steps s).slot = some w ∧ errorsIs w ce = true := by
  intro steps
  induction steps with
  | nil => intro s ce name h; cases h
  | cons p rest ih =>
      intro s ce name h
      obtain ⟨closeResult, pname⟩ := p
      rcases List.mem_cons.mp h with heq | hmem
      · obtain ⟨h1, h2⟩ := Prod.mk.injEq .. ▸ heq
        subst h1; subst h2
        have step : ∃ w, (Close (pureRelease (some ce)) name s).slot = some w ∧
            errorsIs w ce = true := by
          cases hs : s.slot with
          | none =>
              exact ⟨errorfCloseFailed name ce, by simp [Close, pureRelease, hs],
                errorsIs_errorfCloseFailed name ce⟩
          | some cur =>
              exact ⟨errorfCombined cur name ce, by simp [Close, pureRelease, hs],
                errorsIs_errorfCombined_right cur name ce⟩
        obtain ⟨w, hw, hwIs⟩ := step
        exact runCloses_preserves_cause rest _ w ce hw hwIs
      · exact ih _ ce name hmem

/-- Claim C7: over any finite sequence of Close invocations against the same
outcome slot, every failure ever merged in stays identifiable by `errors.Is` on the
final slot value: any cause identifiable in the initial slot value survives every
later merge, and each failing release's error is identifiable in the final value. -/
theorem repeated_closes_preserve_all_causes :
    (∀ (steps : List (Option GoErr × String)) (s : St) (v e : GoErr),
        s.slot = some v → errorsIs v e = true →
        ∃ w, (runCloses steps s).slot = some w ∧ errorsIs w e = true) ∧
    (∀ (steps : List (Option GoErr × String)) (s : St) (ce : GoErr) (name : String),
        (some ce, name) ∈ steps →
        ∃ w, (runCloses steps s).slot = some w ∧ errorsIs w ce = true) :=
  ⟨runCloses_preserves_cause, runCloses_identifies_close_error⟩

theorem repeated_closes_preserve_all_causes_witness :
    (∃ w, (runCloses [(some (GoErr.base 1 "close error"), "file"),
          (some (GoErr.base 2 "socket close error"), "socket")]
        ⟨some (GoErr.base 0 "operation failed"), 0, 0, 0, 0⟩).slot = some w ∧
        errorsIs w (GoErr.base 0 "operation failed") = true) ∧
    (∃ w, (runCloses [(some (GoErr.base 1 "close error"), "file"),
          (some (GoErr.base 2 "socket close error"), "socket")]
        ⟨some (GoErr.base 0 "operation failed"), 0, 0, 0, 0⟩).slot = some w ∧
        errorsIs w (GoErr.base 2 "socket close error") = true) :=
  ⟨repeated_closes_preserve_all_causes.1
      [(some (GoErr.base 1 "close error"), "file"),
        (some (GoErr.base 2 "socket close error"), "socket")]
      ⟨some (GoErr.base 0 "operation failed"), 0, 0, 0, 0⟩
      (GoErr.base 0 "operation failed") (GoErr.base 0 "operation failed")
      rfl (by decide),
    repeated_closes_preserve_all_causes.2
      [(some (GoErr.base 1 "close error"), "file"),
        (some (GoErr.base 2 "socket close error"), "socket")]
      ⟨some (GoErr.base 0 "operation failed"), 0, 0, 0, 0⟩
      (GoErr.base 2 "socket close error") "socket" (by decide)⟩

/-- Claim C8: the combiner introduces no failure of its own. On every invocation it
completes with a defined state; when the release action reports no error the slot is
exactly what the action left there, and when the slot ends up holding an error,
every base failure reachable inside that error by unwrapping came either from the
slot's post-release contents or from the release failure — never from the combiner
itself. -/
theorem combiner_introduces_no_intrinsic_failure
    (resource : ReleaseAction) (name fmtStr : String) (args : List String)
    (s : St) (slotAfter closeRes : Option GoErr)
    (h : resource s.slot = (slotAfter, closeRes)) :
    (closeRes = none → (Close resource name s).slot = slotAfter ∧
        (Closef resource fmtStr args s).slot = slotAfter) ∧
    (∀ v, (Close resource name s).slot = some v →
        ∀ b, b ∈ baseErrs v → b ∈ optBaseErrs slotAfter ++ optBaseErrs closeRes) ∧
    (∀ v, (Closef resource fmtStr args s).slot = some v →
        ∀ b, b ∈ baseErrs v → b ∈ optBaseErrs slotAfter ++ optBaseErrs closeRes) := by
  cases closeRes <;> cases slotAfter <;>
    refine ⟨?_, ?_, ?_⟩ <;>
    simp_all [Close, Closef, h, optBaseErrs, errorfCombined, errorfCloseFailed, baseErrs]

theorem combiner_introduces_no_intrinsic_failure_witness :
    GoErr.base 1 "close error" ∈
      optBaseErrs none ++ optBaseErrs (some (GoErr.base 1 "close error")) :=
  (combiner_introduces_no_intrinsic_failure
      (pureRelease (some (GoErr.base 1 "close error"))) "file" "file" []
      ⟨none, 0, 0, 0, 0⟩ none (some (GoErr.base 1 "close error")) rfl).2.1
    (errorfCloseFailed "file" (GoErr.base 1 "close error")) (by decide)
    (GoErr.base 1 "close error") (by decide)

/-- Claim C9: the `returnedErr` pointer is dereferenced only on the branch where the
release action returned an error. When the release succeeds, the pointer-model
functions return without fault even for a nil pointer, and in the counter model
neither a slot read nor a slot write happens. -/
theorem success_path_never_dereferences_pointer
    (resource : Unit → Option GoErr) (name fmtStr : String) (args : List String)
    (h : resource () = none) :
    ClosePtr resource none name = Except.ok none ∧
    ClosefPtr resource none fmtStr args = Except.ok none ∧
    (∀ ptr, ClosePtr resource ptr name = Except.ok ptr ∧
        ClosefPtr resource ptr fmtStr args = Except.ok ptr) ∧
    (∀ (resource2 : ReleaseAction) (s : St), (resource2 s.slot).2 = none →
        (Close resource2 name s).slotReads = s.slotReads ∧
        (Close resource2 name s).slotWrites = s.slotWrites ∧
        (Closef resource2 fmtStr args s).slotReads = s.slotReads ∧
        (Closef resource2 fmtStr args s).slotWrites = s.slotWrites) := by
  refine ⟨by simp [ClosePtr, h], by simp [ClosefPtr, h],
    fun ptr => ⟨by simp [ClosePtr, h], by simp [ClosefPtr, h]⟩,
    fun resource2 s h2 => ?_⟩
  rcases hr : resource2 s.slot with ⟨slotAfter, closeRes⟩
  rw [hr] at h2
  subst h2
  refine ⟨?_, ?_, ?_, ?_⟩ <;> simp [Close, Closef, hr]

theorem success_path_never_dereferences_pointer_witness :
    ClosePtr (fun _ => none) none "file" = Except.ok none :=
  (success_path_never_dereferences_pointer (fun _ => none) "file" "file at path %s"
    ["/example/path"] rfl).1

/-- Claim C10: the slot value that a failing close is merged with is the value the
slot holds after the release action returned — so a release action that itself
mutates the outcome slot has its post-release value combined, not the pre-call
value. -/
theorem merge_uses_slot_value_after_release
    (resource : ReleaseAction) (name fmtStr : String) (args : List String)
    (s : St) (slotAfter : Option GoErr) (ce : GoErr)
    (h : resource s.slot = (slotAfter, some ce)) :
    (Close resource name s).slot = some (match slotAfter with
      | some cur => errorfCombined cur name ce
      | none => errorfCloseFailed name ce) ∧
    (Closef resource fmtStr args s).slot = some (match slotAfter with
      | some cur => errorfCombined cur (sprintf fmtStr args) ce
      | none => errorfCloseFailed (sprintf fmtStr args) ce) := by
  cases slotAfter <;> exact ⟨by simp [Close, h], by simp [Closef, h]⟩

theorem merge_uses_slot_value_after_release_witness :
    (Close (fun _ => (some (GoErr.base 0 "operation failed"),
        some (GoErr.base 1 "close error"))) "file" ⟨none, 0, 0, 0, 0⟩).slot =
      some (errorfCombined (GoErr.base 0 "operation failed") "file"
        (GoErr.base 1 "close error")) ∧
    (Closef (fun _ => (some (GoErr.base 0 "operation failed"),
        some (GoErr.base 1 "close error"))) "file at path %s" ["/example/path"]
        ⟨none, 0, 0, 0, 0⟩).slot =
      some (errorfCombined (GoErr.base 0 "operation failed")
        (sprintf "file at path %s" ["/example/path"]) (GoErr.base 1 "close error")) :=
  merge_uses_slot_value_after_release
    (fun _ => (some (GoErr.base 0 "operation failed"), some (GoErr.base 1 "close error")))
    "file" "file at path %s" ["/example/path"] ⟨none, 0, 0, 0, 0⟩
    (some (GoErr.base 0 "operation failed")) (GoErr.base 1 "close error") rfl

end Errclose
